import Mathlib

/-!
Verification of the TP/ICAP streaming price transport and the Amberdata
balance endpoint of the external-adapters-js repository.

The WebSocket transport (src/unnamed/part_001) decodes inbound frames into
price ticks, refreshes cache TTLs on heartbeat frames, and gates the open
handler on an auth acknowledgement.  The balance endpoint
(src/amberdata/src/endpoint/balance.ts) maps a batch of addresses to
per-item balance results with warning annotations.

Numbers carried by JSON frames are modelled as rationals; Decimal.js
arithmetic (add, div 2) is exact on the quote magnitudes involved, so it is
modelled by exact rational arithmetic.  A JavaScript exception escaping a
handler is modelled by `Option.none` / `Except.error`.
-/

namespace TpIcap

/-- JavaScript `String.prototype.slice(a, b)` for `0 ≤ a ≤ b`: the
substring from index `a` (inclusive) to `b` (exclusive), clamped to the
string length. -/
def strSlice (s : String) (a b : Nat) : String :=
  String.mk ((s.toList.drop a).take (b - a))

/-- Predicate `startsWithList p s` holds when `p` is an initial segment of `s`. -/
def startsWithList : List Char → List Char → Bool
  | [], _ => true
  | _ :: _, [] => false
  | a :: ps, b :: ss => a = b && startsWithList ps ss

/-- Helper for `strContains`: does `p` occur in the list at any offset? -/
def strContainsAux (p : List Char) : List Char → Bool
  | [] => startsWithList p []
  | c :: rest => startsWithList p (c :: rest) || strContainsAux p rest

/-- JavaScript `String.prototype.includes(pat)`. -/
def strContains (s pat : String) : Bool :=
  strContainsAux pat.toList s.toList

/-- The `fvs` field bundle of an inbound `sub` frame (src/unnamed/part_001,
type `WsMessage`).  Absent JSON fields are `none`. -/
structure Fvs where
  CCY1 : Option String := none
  CCY2 : Option String := none
  ACTIV_DATE : Option String := none
  TIMACT : Option String := none
  BID : Option ℚ := none
  ASK : Option ℚ := none
  MID_PRICE : Option ℚ := none
  deriving DecidableEq, Repr

/-- An inbound WebSocket frame as the message handler sees it after JSON
parsing.  `msg = none` models a frame without a `msg` field; likewise for
the other optional fields. -/
structure WsMessage where
  msg : Option String := none
  recStr : Option String := none
  sta : Option Int := none
  fvs : Option Fvs := none
  deriving DecidableEq, Repr

/-- A subscription parameter tuple `{base, quote, [sourceName]: source}`. -/
structure Param where
  base : String
  quote : String
  source : String
  deriving DecidableEq, Repr

/-- The identity-and-configuration context handed to `calculateCacheKey`:
transport name, adapter name, endpoint name and the serialized adapter
settings of the response cache. -/
structure CacheCtx where
  transportName : String
  adapterName : String
  endpointName : String
  settingsRepr : String
  deriving DecidableEq, Repr

/-- Modelled from the spec: the framework's `calculateCacheKey`
(`@chainlink/external-adapter-framework/cache`, not under src/) is a
deterministic digest of `{adapter identity, parameter tuple, adapter
configuration}`; it is modelled as an injective serialization of exactly
those inputs. -/
def calculateCacheKey (ctx : CacheCtx) (data : Param) : String :=
  ctx.adapterName ++ "|" ++ ctx.endpointName ++ "|" ++ ctx.transportName ++
    "|" ++ ctx.settingsRepr ++ "|" ++ data.base ++ "," ++ data.quote ++
    "," ++ data.source

/-- A cache is an association of fingerprint keys to a stored value and a
TTL.  The value type is abstract: the transport never reads values. -/
abbrev Cache (V : Type) : Type := List (String × V × Nat)

/-- Modelled from the spec: the cache engine's `setTTL(key, ttl)` (an
injected capability, not under src/) updates the TTL of an existing entry
in place, leaves its stored value untouched, and creates no entry when the
key is absent. -/
def setTTL {V : Type} (cache : Cache V) (key : String) (ttl : Nat) :
    Cache V :=
  cache.map fun e => if e.1 = key then (e.1, e.2.1, ttl) else e

/-- Function `updateTTL` (src/unnamed/part_001 lines 40–54): for each parameter
tuple in the subscription set, compute its cache key and set that entry's
TTL to `CACHE_MAX_AGE`. -/
def updateTTL {V : Type} (ctx : CacheCtx) (maxAge : Nat)
    (sSet : List Param) (cache : Cache V) : Cache V :=
  sSet.foldl (fun c param => setTTL c (calculateCacheKey ctx param) maxAge)
    cache

/-- Mutable transport state visible to the message handler: the
subscription set, the response cache and the stream-established
timestamp. -/
structure TransportState (V : Type) where
  subscriptionSet : List Param
  cache : Cache V
  establishedUnixMs : Nat
  deriving DecidableEq

/-- Provider result timestamps (src/unnamed/part_001 lines 144–148). -/
structure Timestamps where
  providerDataReceivedUnixMs : Nat
  providerDataStreamEstablishedUnixMs : Nat
  deriving DecidableEq, Repr

/-- One emitted provider result (price tick). -/
structure ProviderResult where
  params : Param
  result : ℚ
  timestamps : Timestamps
  deriving DecidableEq, Repr

/-- The `result` expression of the message handler
(src/unnamed/part_001 lines 125–130):
`MID_PRICE || new Decimal(ASK).add(BID).div(2).toNumber()`.
JavaScript `||` falls through on a falsy (zero) midpoint; `new
Decimal(undefined)` or `.add(undefined)` throws, modelled as `none`. -/
def computeResult (mid bid ask : Option ℚ) : Option ℚ :=
  match mid with
  | some m => if m = 0 then
      match ask, bid with
      | some a, some b => some ((a + b) / 2)
      | _, _ => none
    else some m
  | none =>
    match ask, bid with
    | some a, some b => some ((a + b) / 2)
    | _, _ => none

/-- Configuration of the generated transport: the configured stream name
and the source parameter name. -/
structure GeneratePriceOptions where
  streamName : String
  sourceName : String
  deriving DecidableEq, Repr

/-- The message handler installed by `generateTransport`
(src/unnamed/part_001 lines 81–152), as a function of the inbound frame,
the transport state and the local receive time.  It returns the list of
emitted provider results and the successor state; `none` models a thrown
JavaScript exception escaping the handler. -/
def messageHandler {V : Type} (opts : GeneratePriceOptions)
    (ctx : CacheCtx) (maxAge : Nat) (st : TransportState V)
    (message : WsMessage) (now : Nat) :
    Option (List ProviderResult × TransportState V) :=
  if message.msg = none ∨ message.msg = some "auth" then some ([], st)
  else
    match message.fvs, message.recStr with
    | some f, some r =>
      if r = "" ∨ message.sta ≠ some 1 then some ([], st)
      else if strContains r "HBHHH" ∧ strSlice r 22 24 = opts.streamName
      then
        some ([], { st with
          cache := updateTTL ctx maxAge st.subscriptionSet st.cache })
      else if strSlice r 31 34 ≠ opts.streamName then some ([], st)
      else if f.MID_PRICE = none ∧ (f.BID = none ∨ f.ASK = none) then
        some ([], st)
      else
        match computeResult f.MID_PRICE f.BID f.ASK with
        | none => none
        | some res =>
          some ([{ params :=
                     { base := strSlice r 5 8
                       quote := strSlice r 8 11
                       source := strSlice r 15 18 }
                   result := res
                   timestamps :=
                     { providerDataReceivedUnixMs := now
                       providerDataStreamEstablishedUnixMs :=
                         st.establishedUnixMs } }], st)
    | _, _ => some ([], st)

/-- A frame as decoded by the open handler's message listener
(src/unnamed/part_001 lines 64–71): only `msg` and `sta` are inspected. -/
structure AuthFrame where
  msg : Option String := none
  sta : Option Int := none
  deriving DecidableEq, Repr

/-- The open handler (src/unnamed/part_001 lines 60–80) run over the trace
of message events received on the fresh connection, each paired with its
local `Date.now()` value.  The returned promise resolves at the first frame
with `msg === 'auth' && sta === 1`, recording that frame's time as
`providerDataStreamEstablishedUnixMs`; `none` means the promise is still
pending after the whole trace. -/
def runOpen (events : List (AuthFrame × Nat)) : Option Nat :=
  (events.find? fun e => e.1.msg == some "auth" && e.1.sta == some 1).map
    (·.2)

end TpIcap

namespace Amberdata

/-- Warning annotation constants (src/amberdata/src/endpoint/balance.ts
lines 20–24). -/
def WARNING_NO_OPERATION_COIN : String := "No Operation: unsupported coin"

/-- See `WARNING_NO_OPERATION_COIN`. -/
def WARNING_NO_OPERATION_TESTNET : String :=
  "No Operation: 'testnet' is only supported on 'eth'"

/-- See `WARNING_NO_OPERATION_COIN`. -/
def WARNING_NO_OPERATION_CHAIN : String :=
  "No Operation: invalid chain parameter, must be one of 'mainnet' or 'testnet'"

/-- See `WARNING_NO_OPERATION_COIN`. -/
def WARNING_NO_OPERATION_MISSING_ADDRESS : String :=
  "No Operation: address param is missing"

/-- Modelled from the spec: the `BLOCKCHAINS` coin-symbol → network-name
map imported from the endpoint index module (not under src/); the balance
endpoint's warning messages name `btc` and `eth` as the supported coins,
with `bitcoin` and `ethereum` the corresponding vendor network names. -/
def BLOCKCHAINS : List (String × String) :=
  [("btc", "bitcoin"), ("eth", "ethereum")]

/-- Model of `Requester.toVendorName(coin, BLOCKCHAINS)`: look the coin symbol up in
the vendor-name map. -/
def toVendorName (coin : String) : String :=
  (((BLOCKCHAINS.find? fun p => p.1 = coin).map (·.2)).getD coin)

/-- Modelled from the spec: `isCoinType` (endpoint index module, not under
src/) accepts exactly the supported coin symbols of `BLOCKCHAINS`. -/
def isCoinType (coin : String) : Bool :=
  (BLOCKCHAINS.find? fun p => p.1 = coin).isSome

/-- Modelled from the spec: `isChainType` (endpoint index module, not
under src/) accepts exactly `mainnet` and `testnet`, per
`WARNING_NO_OPERATION_CHAIN`. -/
def isChainType (chain : String) : Bool :=
  chain = "mainnet" || chain = "testnet"

/-- Function `getBlockchainHeader` (src/amberdata/src/endpoint/balance.ts lines
28–35).  `Except.error` models the thrown warning string. -/
def getBlockchainHeader (chain coin : String) : Except String String :=
  let network := toVendorName coin
  if chain = "testnet" then
    if network = "ethereum" then Except.ok "ethereum-rinkeby"
    else Except.error WARNING_NO_OPERATION_TESTNET
  else Except.ok (network ++ "-mainnet")

/-- One input item of the balance batch.  `address = ""` models a missing
or empty (falsy) address field. -/
structure Address where
  address : String
  coin : Option String := none
  chain : Option String := none
  deriving DecidableEq, Repr

/-- An account result `{ ...addr, balance }`. -/
structure AccountResult where
  address : String
  coin : Option String
  chain : Option String
  balance : Int
  deriving DecidableEq, Repr

/-- One element of the `getBalances` output: the per-item result, whether a
provider response was attached (`response: null` for warned items), and the
optional warning annotation. -/
structure ResponseWithResult where
  result : AccountResult
  hasResponse : Bool
  warning : Option String
  deriving DecidableEq, Repr

/-- The per-address body of the `getBalances` map
(src/amberdata/src/endpoint/balance.ts lines 39–73).  `fetch header
address` stands for `Requester.request(reqConfig)` returning
`response.data.payload.value`; `Except.error` models a rejected promise.
The `warnedResponse` snapshot is taken before the coin/chain defaults are
assigned, as in the source. -/
def getBalanceItem (fetch : String → String → Int) (addr : Address) :
    Except String ResponseWithResult :=
  let warned : AccountResult :=
    { address := addr.address, coin := addr.coin, chain := addr.chain
      balance := 0 }
  if addr.address = "" then
    Except.ok { result := warned, hasResponse := false
                warning := some WARNING_NO_OPERATION_MISSING_ADDRESS }
  else
    let coin := addr.coin.getD "btc"
    if isCoinType coin = false then
      Except.ok { result := warned, hasResponse := false
                  warning := some WARNING_NO_OPERATION_COIN }
    else
      let chain := addr.chain.getD "mainnet"
      if isChainType chain = false then
        Except.ok { result := warned, hasResponse := false
                    warning := some WARNING_NO_OPERATION_CHAIN }
      else
        match getBlockchainHeader chain coin with
        | Except.error e => Except.error e
        | Except.ok header =>
          Except.ok
            { result := { address := addr.address, coin := some coin
                          chain := some chain
                          balance := fetch header addr.address }
              hasResponse := true, warning := none }

/-- Function `getBalances` (src/amberdata/src/endpoint/balance.ts lines 37–75):
`Promise.all` over the per-address map; a single rejected item rejects the
whole batch, modelled by `Except`'s short-circuit. -/
def getBalances (fetch : String → String → Int) (addrs : List Address) :
    Except String (List ResponseWithResult) :=
  addrs.mapM (getBalanceItem fetch)

end Amberdata

namespace TpIcap

/-- Concrete transport options for heartbeat scenarios: the stream-code
slice at offsets 22–24 is two characters wide. -/
def opts0 : GeneratePriceOptions := { streamName := "AB", sourceName := "src" }

/-- Concrete transport options for tick scenarios: the stream-code slice
at offsets 31–34 is three characters wide. -/
def opts1 : GeneratePriceOptions := { streamName := "RTM", sourceName := "src" }

/-- Options whose stream name matches nothing in the test records. -/
def opts2 : GeneratePriceOptions := { streamName := "ZZZ", sourceName := "src" }

/-- A concrete cache context. -/
def ctx0 : CacheCtx :=
  { transportName := "websocket", adapterName := "tp", endpointName := "price"
    settingsRepr := "cfg" }

/-- A second cache context with the same field values as `ctx0`. -/
def ctx1 : CacheCtx :=
  { transportName := "websocket", adapterName := "tp", endpointName := "price"
    settingsRepr := "cfg" }

/-- A registered subscription tuple. -/
def p1 : Param := { base := "EUR", quote := "USD", source := "GBL" }

/-- The same subscription tuple as `p1`, constructed independently. -/
def p2 : Param := { base := "EUR", quote := "USD", source := "GBL" }

/-- A heartbeat composite identifier: contains `HBHHH` and carries stream
code `AB` at offsets 22–24. -/
def hbRec : String := "HBHHHpppppppppppppppppAB"

/-- A price composite identifier carrying base `EUR` (5–8), quote `USD`
(8–11), source `GBL` (15–18) and stream code `RTM` (31–34). -/
def tickRec : String := "FXSPTEURUSDSPT:GBL.BIL.QTE.XXX!RTM"

/-- A heartbeat frame for stream `AB`. -/
def msgHb : WsMessage :=
  { msg := some "sub", recStr := some hbRec, sta := some 1, fvs := some {} }

/-- A tick frame with a nonzero midpoint and both sides quoted. -/
def msgMid : WsMessage :=
  { msg := some "sub", recStr := some tickRec, sta := some 1
    fvs := some { BID := some 1, ASK := some 2, MID_PRICE := some (3 / 2) } }

/-- A tick frame with a zero midpoint and both sides quoted: the input on
which `MID_PRICE || ...` falls through to the bid/ask branch. -/
def msgMidZero : WsMessage :=
  { msg := some "sub", recStr := some tickRec, sta := some 1
    fvs := some { BID := some 1, ASK := some 3, MID_PRICE := some 0 } }

/-- A tick frame carrying only bid and ask (scenario 2 of the spec:
`bid = 1.1000`, `ask = 1.1002`). -/
def msgBidAsk : WsMessage :=
  { msg := some "sub", recStr := some tickRec, sta := some 1
    fvs := some { BID := some (11 / 10), ASK := some (5501 / 5000) } }

/-- A frame of type `auth` (ignored by the message handler). -/
def msgAuth : WsMessage :=
  { msg := some "auth", recStr := some tickRec, sta := some 1
    fvs := some {} }

/-- Transport state with one registered subscription and two cache
entries: the fingerprint of `p1` and an unrelated key. -/
def st0 : TransportState String :=
  { subscriptionSet := [p1]
    cache := [(calculateCacheKey ctx0 p1, "v", 5), ("other", "w", 7)]
    establishedUnixMs := 3 }

/-- Transport state with an empty registry and cache. -/
def st1 : TransportState String :=
  { subscriptionSet := [], cache := [], establishedUnixMs := 3 }

/-- An event trace with no auth acknowledgement: a `sub` frame and an
`auth` frame with a failure status. -/
def ev0 : List (AuthFrame × Nat) :=
  [({ msg := some "sub", sta := some 1 }, 5),
   ({ msg := some "auth", sta := some 0 }, 6)]

end TpIcap

namespace Amberdata

/-- A provider stub returning a fixed balance for every request. -/
def fetch0 : String → String → Int := fun _ _ => 100

/-- A batch item requesting `btc` on `testnet`: an unsupported
combination. -/
def addrTestnet : Address :=
  { address := "addr1", coin := some "btc", chain := some "testnet" }

/-- A well-formed sibling batch item (`btc` on `mainnet`). -/
def addrGood : Address :=
  { address := "addr2", coin := some "btc", chain := some "mainnet" }

/-- A batch item with a non-empty address and no coin or chain fields. -/
def addrBare : Address := { address := "1abc" }

end Amberdata

namespace TpIcap

/-- The TTL refresh pass acts pointwise: every entry keeps its key and
value, and its TTL becomes `maxAge` exactly when its key is the fingerprint
of some tuple in the subscription set. -/
theorem updateTTL_eq_map {V : Type} (ctx : CacheCtx) (maxAge : Nat)
    (sSet : List Param) (cache : Cache V) :
    updateTTL ctx maxAge sSet cache =
      cache.map fun e =>
        if e.1 ∈ sSet.map (calculateCacheKey ctx) then (e.1, e.2.1, maxAge)
        else e := by
  induction sSet generalizing cache with
  | nil => simp [updateTTL]
  | cons p ps ih =>
    have h1 : updateTTL ctx maxAge (p :: ps) cache =
        updateTTL ctx maxAge ps
          (setTTL cache (calculateCacheKey ctx p) maxAge) := rfl
    rw [h1, ih, setTTL, List.map_map]
    refine List.map_congr_left ?_
    intro e _
    by_cases h : e.1 = calculateCacheKey ctx p
    · simp [Function.comp, h]
    · simp [Function.comp, h]

/-- C1: a frame that passes the guards, contains the heartbeat marker and
matches the configured stream name at offsets 22–24 emits zero ticks and
refreshes the cache so that every entry keyed by the fingerprint of a
registered tuple has its TTL set to the configured max-age, every stored
value is unchanged, and all other entries are untouched. -/
theorem heartbeat_refreshes_all_ttls {V : Type}
    (opts : GeneratePriceOptions) (ctx : CacheCtx) (maxAge : Nat)
    (st : TransportState V) (message : WsMessage) (now : Nat)
    (m : String) (f : Fvs) (r : String)
    (hm : message.msg = some m) (hma : m ≠ "auth")
    (hf : message.fvs = some f) (hr : message.recStr = some r)
    (hre : r ≠ "") (hsta : message.sta = some 1)
    (hhb : strContains r "HBHHH" = true)
    (hsn : strSlice r 22 24 = opts.streamName) :
    messageHandler opts ctx maxAge st message now =
      some ([], { st with cache := st.cache.map fun e =>
        if e.1 ∈ st.subscriptionSet.map (calculateCacheKey ctx)
        then (e.1, e.2.1, maxAge) else e }) := by
  simp [messageHandler, hm, hma, hf, hr, hre, hsta, hhb, hsn,
    updateTTL_eq_map]

/-- Witness for C1 at a concrete heartbeat frame and two-entry cache: the
registered fingerprint's TTL becomes 100, the other entry keeps TTL 7, and
no tick is emitted. -/
theorem heartbeat_refreshes_all_ttls_witness :
    strContains hbRec "HBHHH" = true ∧
    messageHandler opts0 ctx0 100 st0 msgHb 7 =
      some ([], { st0 with
        cache := [(calculateCacheKey ctx0 p1, "v", 100), ("other", "w", 7)] }) :=
  ⟨by decide, by
    rw [heartbeat_refreshes_all_ttls opts0 ctx0 100 st0 msgHb 7 "sub" {}
      hbRec rfl (by decide) rfl rfl (by decide) rfl (by decide) (by decide)]
    decide⟩

/-- C2 (amended): for every decoded price message whose midpoint field is
present and nonzero, the emitted tick's result is that midpoint verbatim
and the bid and ask fields have no influence: the whole handler output is
determined without reference to `f.BID` and `f.ASK`, and the state is
unchanged. -/
theorem midprice_nonzero_used_verbatim {V : Type}
    (opts : GeneratePriceOptions) (ctx : CacheCtx) (maxAge : Nat)
    (st : TransportState V) (message : WsMessage) (now : Nat)
    (m : String) (f : Fvs) (r : String) (mp : ℚ)
    (hm : message.msg = some m) (hma : m ≠ "auth")
    (hf : message.fvs = some f) (hr : message.recStr = some r)
    (hre : r ≠ "") (hsta : message.sta = some 1)
    (hnothb : ¬(strContains r "HBHHH" = true ∧
      strSlice r 22 24 = opts.streamName))
    (hsm : strSlice r 31 34 = opts.streamName)
    (hmp : f.MID_PRICE = some mp) (hnz : mp ≠ 0) :
    messageHandler opts ctx maxAge st message now =
      some ([{ params :=
                 { base := strSlice r 5 8
                   quote := strSlice r 8 11
                   source := strSlice r 15 18 }
               result := mp
               timestamps :=
                 { providerDataReceivedUnixMs := now
                   providerDataStreamEstablishedUnixMs :=
                     st.establishedUnixMs } }], st) := by
  have hguard : ¬(f.MID_PRICE = none ∧ (f.BID = none ∨ f.ASK = none)) := by
    simp [hmp]
  simp [messageHandler, hm, hma, hf, hr, hre, hsta, hnothb, hsm, hguard,
    computeResult, hmp, hnz]

/-- Witness for the amended C2: a concrete tick frame with midpoint `3/2`,
bid `1` and ask `2` yields result `3/2`, not the bid/ask midpoint. -/
theorem midprice_nonzero_used_verbatim_witness :
    (3 / 2 : ℚ) ≠ 0 ∧
    messageHandler opts1 ctx0 100 st1 msgMid 7 =
      some ([{ params := { base := "EUR", quote := "USD", source := "GBL" }
               result := 3 / 2
               timestamps :=
                 { providerDataReceivedUnixMs := 7
                   providerDataStreamEstablishedUnixMs := 3 } }], st1) :=
  ⟨by norm_num, by
    rw [midprice_nonzero_used_verbatim opts1 ctx0 100 st1 msgMid 7 "sub"
      { BID := some 1, ASK := some 2, MID_PRICE := some (3 / 2) } tickRec
      (3 / 2) rfl (by decide) rfl rfl (by decide) rfl (by decide)
      (by decide) rfl (by norm_num)]
    rfl⟩

/-- Counterexample to C2 as stated: in the frame `msgMidZero` the midpoint
field is present (with value `0`), yet the emitted result is `2`, the
bid/ask midpoint — JavaScript `||` treats the zero midpoint as falsy, so
bid and ask do influence the result. -/
theorem midprice_zero_counterexample :
    msgMidZero.fvs = some { BID := some 1, ASK := some 3
                            MID_PRICE := some 0 } ∧
    messageHandler opts1 ctx0 100 st1 msgMidZero 7 =
      some ([{ params := { base := "EUR", quote := "USD", source := "GBL" }
               result := 2
               timestamps :=
                 { providerDataReceivedUnixMs := 7
                   providerDataStreamEstablishedUnixMs := 3 } }], st1) ∧
    (2 : ℚ) ≠ 0 := by
  refine ⟨rfl, ?_, by norm_num⟩
  have hstep : messageHandler opts1 ctx0 100 st1 msgMidZero 7 =
      some ([{ params := { base := "EUR", quote := "USD", source := "GBL" }
               result := ((3 : ℚ) + 1) / 2
               timestamps :=
                 { providerDataReceivedUnixMs := 7
                   providerDataStreamEstablishedUnixMs := 3 } }], st1) := rfl
  have h2 : ((3 : ℚ) + 1) / 2 = 2 := by norm_num
  rw [hstep, h2]

/-- C3: for every decoded price message with no midpoint and both bid and
ask present, the emitted tick's result is exactly `(bid + ask) / 2` in
exact (rational) decimal arithmetic. -/
theorem bid_ask_midpoint_exact {V : Type}
    (opts : GeneratePriceOptions) (ctx : CacheCtx) (maxAge : Nat)
    (st : TransportState V) (message : WsMessage) (now : Nat)
    (m : String) (f : Fvs) (r : String) (b a : ℚ)
    (hm : message.msg = some m) (hma : m ≠ "auth")
    (hf : message.fvs = some f) (hr : message.recStr = some r)
    (hre : r ≠ "") (hsta : message.sta = some 1)
    (hnothb : ¬(strContains r "HBHHH" = true ∧
      strSlice r 22 24 = opts.streamName))
    (hsm : strSlice r 31 34 = opts.streamName)
    (hmp : f.MID_PRICE = none) (hb : f.BID = some b) (ha : f.ASK = some a) :
    messageHandler opts ctx maxAge st message now =
      some ([{ params :=
                 { base := strSlice r 5 8
                   quote := strSlice r 8 11
                   source := strSlice r 15 18 }
               result := (b + a) / 2
               timestamps :=
                 { providerDataReceivedUnixMs := now
                   providerDataStreamEstablishedUnixMs :=
                     st.establishedUnixMs } }], st) := by
  have hguard : ¬(f.MID_PRICE = none ∧ (f.BID = none ∨ f.ASK = none)) := by
    simp [hb, ha]
  simp [messageHandler, hm, hma, hf, hr, hre, hsta, hnothb, hsm, hguard,
    computeResult, hmp, hb, ha, add_comm]

/-- Witness for C3 at the spec's scenario 2: bid `1.1000`, ask `1.1002`
give result exactly `1.1001` (= 11001/10000). -/
theorem bid_ask_midpoint_exact_witness :
    msgBidAsk.fvs = some { BID := some (11 / 10), ASK := some (5501 / 5000) } ∧
    messageHandler opts1 ctx0 100 st1 msgBidAsk 7 =
      some ([{ params := { base := "EUR", quote := "USD", source := "GBL" }
               result := 11001 / 10000
               timestamps :=
                 { providerDataReceivedUnixMs := 7
                   providerDataStreamEstablishedUnixMs := 3 } }], st1) :=
  ⟨rfl, by
    rw [bid_ask_midpoint_exact opts1 ctx0 100 st1 msgBidAsk 7 "sub"
      { BID := some (11 / 10), ASK := some (5501 / 5000) } tickRec
      (11 / 10) (5501 / 5000) rfl (by decide) rfl rfl (by decide) rfl
      (by decide) rfl rfl rfl rfl]
    have h2 : ((11 / 10 : ℚ) + 5501 / 5000) / 2 = 11001 / 10000 := by
      norm_num
    rw [h2]
    rfl⟩

/-- C4: the open handler resolves only after a frame with `msg = auth` and
`sta = 1`; when it resolves it records that frame's local time as the
stream-established timestamp, and if no such frame occurs in the trace it
never resolves. -/
theorem open_resolves_only_on_auth_ack (events : List (AuthFrame × Nat)) :
    ((runOpen events).isSome = true →
      ∃ e ∈ events, e.1.msg = some "auth" ∧ e.1.sta = some 1) ∧
    (∀ t : Nat, runOpen events = some t →
      ∃ e ∈ events, e.1.msg = some "auth" ∧ e.1.sta = some 1 ∧ e.2 = t) ∧
    ((∀ e ∈ events, ¬(e.1.msg = some "auth" ∧ e.1.sta = some 1)) →
      runOpen events = none) := by
  refine ⟨?_, ?_, ?_⟩
  · intro h
    obtain ⟨t, ht⟩ := Option.isSome_iff_exists.mp h
    rw [runOpen] at ht
    obtain ⟨e, he, _⟩ := Option.map_eq_some.mp ht
    have hmem := List.mem_of_find?_eq_some he
    have hp := List.find?_some he
    simp only [Bool.and_eq_true, beq_iff_eq] at hp
    exact ⟨e, hmem, hp.1, hp.2⟩
  · intro t ht
    rw [runOpen] at ht
    obtain ⟨e, he, h2⟩ := Option.map_eq_some.mp ht
    have hmem := List.mem_of_find?_eq_some he
    have hp := List.find?_some he
    simp only [Bool.and_eq_true, beq_iff_eq] at hp
    exact ⟨e, hmem, hp.1, hp.2, h2⟩
  · intro h
    rw [runOpen, Option.map_eq_none', List.find?_eq_none]
    intro e he
    have := h e he
    simp only [Bool.and_eq_true, beq_iff_eq]
    exact fun hc => this ⟨hc.1, hc.2⟩

/-- Witness for C4: on a trace with a `sub` frame and a failed auth frame
but no auth acknowledgement, the open promise is still pending. -/
theorem open_resolves_only_on_auth_ack_witness : runOpen ev0 = none :=
  (open_resolves_only_on_auth_ack ev0).2.2 (by decide)

/-- C5: a non-heartbeat frame whose stream code at offsets 31–34 differs
from the configured stream name produces no tick and leaves the transport
state — in particular the cache — unchanged, without raising an error. -/
theorem stream_mismatch_ignored {V : Type}
    (opts : GeneratePriceOptions) (ctx : CacheCtx) (maxAge : Nat)
    (st : TransportState V) (message : WsMessage) (now : Nat) (r : String)
    (hr : message.recStr = some r)
    (hnothb : ¬(strContains r "HBHHH" = true ∧
      strSlice r 22 24 = opts.streamName))
    (hmm : strSlice r 31 34 ≠ opts.streamName) :
    messageHandler opts ctx maxAge st message now = some ([], st) := by
  by_cases h1 : message.msg = none ∨ message.msg = some "auth"
  · simp [messageHandler, h1]
  · cases hf : message.fvs with
    | none => simp [messageHandler, h1, hf, hr]
    | some f =>
      by_cases h2 : r = "" ∨ message.sta ≠ some 1
      · simp only [messageHandler, hf, hr]
        rw [if_neg h1, if_pos h2]
      · simp only [messageHandler, hf, hr]
        rw [if_neg h1, if_neg h2, if_neg hnothb, if_pos hmm]

/-- Witness for C5: a tick frame for stream `RTM` received by a transport
configured for stream `ZZZ` is dropped and the state is untouched. -/
theorem stream_mismatch_ignored_witness :
    strSlice tickRec 31 34 ≠ opts2.streamName ∧
    messageHandler opts2 ctx0 100 st0 msgMid 7 = some ([], st0) :=
  ⟨by decide,
    stream_mismatch_ignored opts2 ctx0 100 st0 msgMid 7 tickRec rfl
      (by decide) (by decide)⟩

/-- C6: a frame without a `msg` field, or of type `auth`, or missing `fvs`
or `rec`, or whose status is not the active sentinel `1`, yields the empty
result with the state unchanged, and never a thrown error (`none`). -/
theorem malformed_frame_ignored {V : Type}
    (opts : GeneratePriceOptions) (ctx : CacheCtx) (maxAge : Nat)
    (st : TransportState V) (message : WsMessage) (now : Nat)
    (h : message.msg = none ∨ message.msg = some "auth" ∨
      message.fvs = none ∨ message.recStr = none ∨
      message.sta ≠ some 1) :
    messageHandler opts ctx maxAge st message now = some ([], st) := by
  by_cases h1 : message.msg = none ∨ message.msg = some "auth"
  · simp [messageHandler, h1]
  · cases hf : message.fvs with
    | none => simp [messageHandler, h1, hf]
    | some f =>
      cases hr : message.recStr with
      | none => simp [messageHandler, h1, hf, hr]
      | some r =>
        have hsta : message.sta ≠ some 1 := by
          rcases h with h | h | h | h | h
          · exact absurd (Or.inl h) h1
          · exact absurd (Or.inr h) h1
          · rw [hf] at h; exact absurd h (by simp)
          · rw [hr] at h; exact absurd h (by simp)
          · exact h
        simp only [messageHandler, hf, hr]
        rw [if_neg h1, if_pos (Or.inr hsta)]

/-- Witness for C6: a frame of type `auth` reaching the message handler is
ignored without error and without touching the state. -/
theorem malformed_frame_ignored_witness :
    msgAuth.msg = some "auth" ∧
    messageHandler opts1 ctx0 100 st0 msgAuth 7 = some ([], st0) :=
  ⟨rfl,
    malformed_frame_ignored opts1 ctx0 100 st0 msgAuth 7
      (Or.inr (Or.inl rfl))⟩

/-- C7: a fingerprint with no cache entry stays absent through a heartbeat
refresh pass — no value materializes under it — and the TTL extension for
such a fingerprint is a no-op on the whole cache. -/
theorem refresh_absent_fingerprint_noop {V : Type} (ctx : CacheCtx)
    (maxAge : Nat) (sSet : List Param) (cache : Cache V) (k : String)
    (h : ∀ e ∈ cache, e.1 ≠ k) :
    (∀ e ∈ updateTTL ctx maxAge sSet cache, e.1 ≠ k) ∧
    setTTL cache k maxAge = cache := by
  constructor
  · intro e he
    rw [updateTTL_eq_map] at he
    obtain ⟨e0, he0, heq⟩ := List.mem_map.mp he
    have hk := h e0 he0
    by_cases hc : e0.1 ∈ sSet.map (calculateCacheKey ctx)
    · rw [if_pos hc] at heq
      rw [← heq]
      exact hk
    · rw [if_neg hc] at heq
      rw [← heq]
      exact hk
  · rw [setTTL]
    have : ∀ e ∈ cache,
        (if e.1 = k then (e.1, e.2.1, maxAge) else e) = e := by
      intro e he
      rw [if_neg (h e he)]
    rw [List.map_congr_left this, List.map_id']

/-- Witness for C7: `st0`'s cache has no entry keyed `nokey`; after a full
refresh pass no entry keyed `nokey` exists, and extending `nokey`'s TTL
leaves the cache identical. -/
theorem refresh_absent_fingerprint_noop_witness :
    (∀ e ∈ st0.cache, e.1 ≠ "nokey") ∧
    (∀ e ∈ updateTTL ctx0 100 st0.subscriptionSet st0.cache,
      e.1 ≠ "nokey") ∧
    setTTL st0.cache "nokey" 100 = st0.cache :=
  ⟨by decide,
    (refresh_absent_fingerprint_noop ctx0 100 st0.subscriptionSet st0.cache
      "nokey" (by decide)).1,
    (refresh_absent_fingerprint_noop ctx0 100 st0.subscriptionSet st0.cache
      "nokey" (by decide)).2⟩

/-- C8: cache-fingerprint computation is deterministic — two computations
over equal identity/configuration contexts and equal parameter tuples
yield byte-identical keys. -/
theorem calculateCacheKey_deterministic (ctxa ctxb : CacheCtx)
    (da db : Param) (hc : ctxa = ctxb) (hd : da = db) :
    calculateCacheKey ctxa da = calculateCacheKey ctxb db := by
  rw [hc, hd]

/-- Witness for C8: the independently constructed contexts `ctx0`, `ctx1`
and tuples `p1`, `p2` have equal fields, and their fingerprints are the
identical byte string. -/
theorem calculateCacheKey_deterministic_witness :
    ctx0 = ctx1 ∧ p1 = p2 ∧
    calculateCacheKey ctx0 p1 = calculateCacheKey ctx1 p2 :=
  ⟨by decide, by decide,
    calculateCacheKey_deterministic ctx0 ctx1 p1 p2 (by decide) (by decide)⟩

end TpIcap

namespace Amberdata

/-- C9 (divergence): the item `{btc, testnet}` is an unsupported
chain/coin combination, yet instead of yielding a per-item warning it
rejects the entire batch — `getBlockchainHeader` throws the
`WARNING_NO_OPERATION_TESTNET` string inside `Promise.all`, so the
well-formed sibling `addrGood`, which resolves normally on its own, never
contributes a result. -/
theorem unsupported_combination_aborts_batch :
    getBalances fetch0 [addrTestnet, addrGood] =
      Except.error WARNING_NO_OPERATION_TESTNET ∧
    getBalanceItem fetch0 addrGood =
      Except.ok { result := { address := "addr2", coin := some "btc"
                              chain := some "mainnet", balance := 100 }
                  hasResponse := true, warning := none } := by
  constructor
  · rfl
  · rfl

/-- C10: a batch item with a non-empty address and missing coin and chain
fields is processed as a `btc`/`mainnet` lookup: the defaults are filled
in before validation, the vendor header is `bitcoin-mainnet`, and the item
resolves with the fetched balance and no warning. -/
theorem missing_coin_chain_defaults (fetch : String → String → Int)
    (addr : Address) (ha : addr.address ≠ "")
    (hc : addr.coin = none) (hch : addr.chain = none) :
    getBalanceItem fetch addr =
      Except.ok
        { result := { address := addr.address, coin := some "btc"
                      chain := some "mainnet"
                      balance := fetch "bitcoin-mainnet" addr.address }
          hasResponse := true, warning := none } := by
  simp [getBalanceItem, ha, hc, hch, isCoinType, isChainType, BLOCKCHAINS,
    getBlockchainHeader, toVendorName]

/-- Witness for C10: the bare address `1abc` is looked up as
`btc`/`mainnet` and resolves with the stubbed balance `100` and no
warning. -/
theorem missing_coin_chain_defaults_witness :
    addrBare.address ≠ "" ∧ addrBare.coin = none ∧
    getBalanceItem fetch0 addrBare =
      Except.ok
        { result := { address := "1abc", coin := some "btc"
                      chain := some "mainnet", balance := 100 }
          hasResponse := true, warning := none } :=
  ⟨by decide, rfl,
    missing_coin_chain_defaults fetch0 addrBare (by decide) rfl rfl⟩

end Amberdata
